import Mathlib

/-!
Verification development for the Verity research client.

The embedding below models the two-stage research orchestration pipeline
(`runResearch` in src/services/geminiService.ts), the grounding-metadata
projection, the live-session cleanup (`disconnect` in src/hooks/useLive.ts),
and — modelled from the spec, since its implementation is not part of the
source tree — the Report Merger of spec §4.2.

JavaScript `JSON.parse` is modelled by an executable recursive-descent
parser over the character list of the input; JavaScript falsiness of
strings (`""` is falsy) is modelled explicitly where the source relies
on it.
-/

namespace Verity

/-- JSON values as produced by `JSON.parse`.  Numbers keep their integer
part and the literal digits of the fractional part, which is an injective
image of the numeric literals appearing in this development. -/
inductive Json where
  | null : Json
  | bool (b : Bool) : Json
  | num (i : Int) (frac : String) : Json
  | str (s : String) : Json
  | arr (elems : List Json) : Json
  | obj (fields : List (String × Json)) : Json

/-- JSON whitespace skipping. -/
def skipWs : List Char → List Char
  | c :: cs => if c = ' ' ∨ c = '\n' ∨ c = '\t' ∨ c = '\r' then skipWs cs else c :: cs
  | [] => []

/-- Parse the body of a JSON string literal (the opening quote already
consumed), handling the common escape sequences. -/
def parseStringBody : List Char → Option (String × List Char)
  | '"' :: rest => some ("", rest)
  | '\\' :: e :: rest =>
    let esc : Option Char :=
      if e = '"' then some '"'
      else if e = '\\' then some '\\'
      else if e = '/' then some '/'
      else if e = 'n' then some '\n'
      else if e = 't' then some '\t'
      else if e = 'r' then some '\r'
      else none
    match esc with
    | none => none
    | some c =>
      match parseStringBody rest with
      | some (s, r) => some (String.singleton c ++ s, r)
      | none => none
  | c :: rest =>
    match parseStringBody rest with
    | some (s, r) => some (String.singleton c ++ s, r)
    | none => none
  | [] => none

/-- Take a maximal run of decimal digits. -/
def takeDigits : List Char → (String × List Char)
  | c :: cs =>
    if c.isDigit then
      let (s, r) := takeDigits cs
      (String.singleton c ++ s, r)
    else ("", c :: cs)
  | [] => ("", [])

/-- Digits of a string to a natural number (most significant first). -/
def digitsToNat (s : String) : Nat :=
  s.toList.foldl (fun acc c => acc * 10 + (c.toNat - 48)) 0

/-- Parse a JSON number (no exponent part; none occurs in this development). -/
def parseNumber (input : List Char) : Option (Json × List Char) :=
  let (neg, rest) :=
    match input with
    | '-' :: r => (true, r)
    | r => (false, r)
  let (ds, rest2) := takeDigits rest
  if ds = "" then none
  else
    let i : Int := if neg then -(digitsToNat ds : Int) else (digitsToNat ds : Int)
    match rest2 with
    | '.' :: r3 =>
      let (fs, rest4) := takeDigits r3
      if fs = "" then none else some (Json.num i fs, rest4)
    | _ => some (Json.num i "", rest2)

mutual

/-- Recursive-descent parser for one JSON value, fuelled. -/
def parseVal : Nat → List Char → Option (Json × List Char)
  | 0, _ => none
  | Nat.succ fuel, input =>
    match skipWs input with
    | 'n' :: 'u' :: 'l' :: 'l' :: rest => some (Json.null, rest)
    | 't' :: 'r' :: 'u' :: 'e' :: rest => some (Json.bool true, rest)
    | 'f' :: 'a' :: 'l' :: 's' :: 'e' :: rest => some (Json.bool false, rest)
    | '"' :: rest =>
      match parseStringBody rest with
      | some (s, r) => some (Json.str s, r)
      | none => none
    | '[' :: rest =>
      match skipWs rest with
      | ']' :: r => some (Json.arr [], r)
      | r => match parseElems fuel r with
             | some (vs, r2) => some (Json.arr vs, r2)
             | none => none
    | '{' :: rest =>
      match skipWs rest with
      | '}' :: r => some (Json.obj [], r)
      | r => match parseMembers fuel r with
             | some (fs, r2) => some (Json.obj fs, r2)
             | none => none
    | c :: rest =>
      if c = '-' ∨ c.isDigit then parseNumber (c :: rest) else none
    | [] => none

/-- Parse the elements of a non-empty JSON array, up to and including `]`. -/
def parseElems : Nat → List Char → Option (List Json × List Char)
  | 0, _ => none
  | Nat.succ fuel, input =>
    match parseVal fuel input with
    | none => none
    | some (v, rest) =>
      match skipWs rest with
      | ',' :: r =>
        match parseElems fuel r with
        | some (vs, r2) => some (v :: vs, r2)
        | none => none
      | ']' :: r => some ([v], r)
      | _ => none

/-- Parse the members of a non-empty JSON object, up to and including `}`. -/
def parseMembers : Nat → List Char → Option (List (String × Json) × List Char)
  | 0, _ => none
  | Nat.succ fuel, input =>
    match skipWs input with
    | '"' :: rest =>
      match parseStringBody rest with
      | none => none
      | some (k, r1) =>
        match skipWs r1 with
        | ':' :: r2 =>
          match parseVal fuel r2 with
          | none => none
          | some (v, r3) =>
            match skipWs r3 with
            | ',' :: r4 =>
              match parseMembers fuel r4 with
              | some (fs, r5) => some ((k, v) :: fs, r5)
              | none => none
            | '}' :: r4 => some ([(k, v)], r4)
            | _ => none
        | _ => none
    | _ => none

end

/-- Model of JavaScript `JSON.parse`: the whole input must be a single
JSON value surrounded only by whitespace, otherwise parsing fails. -/
def Json.parse (s : String) : Option Json :=
  match parseVal (2 * s.length + 2) s.toList with
  | some (v, rest) => if skipWs rest = [] then some v else none
  | none => none

/-- Last-wins association lookup, matching JavaScript object semantics
where a later duplicate key overwrites an earlier one. -/
def lookupLast (fs : List (String × Json)) (k : String) : Option Json :=
  fs.foldl (fun acc p => if p.1 = k then some p.2 else acc) none

/-- Property access `j[k]` on a parsed JSON value: only objects have
(string-keyed) fields. -/
def Json.getField : Json → String → Option Json
  | Json.obj fs, k => lookupLast fs k
  | _, _ => none

/-- String payload of a JSON value, when it is a string. -/
def Json.asString : Json → Option String
  | Json.str s => some s
  | _ => none

/-- Element list of a JSON value, when it is an array. -/
def Json.asArr : Json → Option (List Json)
  | Json.arr xs => some xs
  | _ => none

/-! ## Embedding of src/services/geminiService.ts -/

/-- `web` part of a grounding chunk: `{web: {uri, title}}`, each field
possibly absent. -/
structure WebInfo where
  uri : Option String
  title : Option String
deriving DecidableEq

/-- One grounding chunk of the search response. -/
structure GroundingChunk where
  web : Option WebInfo
deriving DecidableEq

/-- `candidates[0].groundingMetadata` of the search response. -/
structure GroundingMetadataRaw where
  webSearchQueries : Option (List String)
  groundingChunks : Option (List GroundingChunk)
deriving DecidableEq

/-- One candidate of a generateContent response. -/
structure Candidate where
  finishReason : Option String
  groundingMetadata : Option GroundingMetadataRaw
deriving DecidableEq

/-- A generateContent response as consumed by `runResearch`: its `.text`
accessor and its candidate list. -/
structure GenResponse where
  text : Option String
  candidates : List Candidate
deriving DecidableEq

/-- JavaScript falsiness of an optional string: `undefined` and `""` are
falsy, so `if (!x)` rejects both. -/
def textOk (t : Option String) : Option String :=
  match t with
  | none => none
  | some s => if s = "" then none else some s

/-- `depthInstruction` of `runResearch` (geminiService.ts lines 20–23):
starts empty and is overwritten by one of three guarded assignments; an
unknown depth value leaves it empty. -/
def depthInstruction (depth : String) : String :=
  if depth = "quick" then "Find the top 3 most relevant sources. Be concise but factual."
  else if depth = "standard" then "Analyze 5-7 distinct high-quality sources. Provide a balanced view."
  else if depth = "deep" then "Conduct an exhaustive search (10+ sources). Cross-reference extensively and look for edge cases."
  else ""

/-- The user-content prompt sent to the search stage. -/
def researchPrompt (query depth : String) : String :=
  "\n    RESEARCH QUERY: \"" ++ query ++ "\"\n    INSTRUCTION: " ++ depthInstruction depth ++ "\n  "

/-- Error message chosen when step 1 returns no text
(geminiService.ts lines 61–71). -/
def noContentMessage (finishReason : Option String) : String :=
  let base :=
    if finishReason = some "SAFETY" then
      "The research was blocked due to safety content filters."
    else if finishReason = some "RECITATION" then
      "The research was blocked due to recitation of copyrighted content."
    else
      "Verity could not find information on this topic."
  base ++ " (Step 1 No Text)"

/-- Grounding metadata of the first candidate, as read by
`searchResponse.candidates?.[0]?.groundingMetadata`. -/
def groundingOf (resp : GenResponse) : Option GroundingMetadataRaw :=
  resp.candidates.head?.bind (fun c => c.groundingMetadata)

/-- Finish reason of the first candidate, as read by
`searchResponse.candidates?.[0]?.finishReason`. -/
def finishReasonOf (resp : GenResponse) : Option String :=
  resp.candidates.head?.bind (fun c => c.finishReason)

/-- `chunk.web?.uri || ""`: the chunk's URI with JavaScript falsy
defaulting. -/
def chunkUri (c : GroundingChunk) : String :=
  (c.web.bind (fun w => w.uri)).getD ""

/-- `chunk.web?.title || "Unknown Source"`: the chunk's title with
JavaScript falsy defaulting (an empty title is also replaced). -/
def chunkTitle (c : GroundingChunk) : String :=
  let t := (c.web.bind (fun w => w.title)).getD ""
  if t = "" then "Unknown Source" else t

/-- The `{uri, title}` pair a chunk is reduced to. -/
def chunkPair (c : GroundingChunk) : String × String :=
  (chunkUri c, chunkTitle c)

/-- `webSources` of `finalGroundingMetadata` (geminiService.ts lines
130–133): map each chunk to `{uri: chunk.web?.uri || "", title:
chunk.web?.title || "Unknown Source"}`, then keep entries with a truthy
(non-empty) `uri`; a missing chunk list yields `[]`. -/
def webSources (g : Option GroundingMetadataRaw) : List (String × String) :=
  match g.bind (fun gm => gm.groundingChunks) with
  | none => []
  | some chunks =>
    (chunks.map chunkPair).filter (fun s => ¬ s.1 = "")

/-- `searchQueries` captured from step 1:
`groundingMetadataRaw?.webSearchQueries || []`. -/
def searchQueriesOf (g : Option GroundingMetadataRaw) : List String :=
  (g.bind (fun gm => gm.webSearchQueries)).getD []

/-- The JSON object a `{uri, title}` pair is rendered to in the trace. -/
def webSourceJson (s : String × String) : Json :=
  Json.obj [("uri", Json.str s.1), ("title", Json.str s.2)]

/-- The `finalGroundingMetadata` object attached to the returned report. -/
def groundingJson (queries : List String) (ws : List (String × String)) : Json :=
  Json.obj
    [("searchQueries", Json.arr (queries.map Json.str)),
     ("webSources", Json.arr (ws.map webSourceJson))]

/-- Fields contributed by JavaScript object spread `{...v}`: objects
contribute their fields, arrays and strings contribute index-keyed
entries, primitives contribute nothing. -/
def spreadFields : Json → List (String × Json)
  | Json.obj fs => fs
  | Json.arr xs => (xs.enum.map (fun p => (toString p.1, p.2)))
  | Json.str s => (s.toList.enum.map (fun p => (toString p.1, Json.str (String.singleton p.2))))
  | _ => []

/-- The returned report `{...structuredData, groundingMetadata: g}`. -/
def withGrounding (structuredData : Json) (g : Json) : Json :=
  Json.obj (spreadFields structuredData ++ [("groundingMetadata", g)])

/-- The ways `runResearch` throws. -/
inductive RunError where
  | configError (msg : String) : RunError
  | noContent (msg : String) : RunError
  | synthesisEmpty (msg : String) : RunError
  | parseError : RunError
deriving DecidableEq

set_option linter.unusedVariables false in
/-- Shallow embedding of `runResearch` (geminiService.ts lines 10–145).
The two collaborator calls are modelled by their responses `search` and
format; everything the function does with them is translated directly:
the apiKey guard, the step-1 no-text error with its finish-reason
message, the step-2 empty-text error, `JSON.parse` of the synthesis text,
and the final spread with `groundingMetadata` attached. -/
def runResearch (apiKey query depth : String) (isVoiceMode : Bool)
    (search : GenResponse) (format : GenResponse) : Except RunError Json :=
  if apiKey = "" then
    Except.error (RunError.configError "API Key is missing. Please set the API_KEY environment variable.")
  else
    match textOk search.text with
    | none => Except.error (RunError.noContent (noContentMessage (finishReasonOf search)))
    | some _ =>
      let groundingMetadataRaw := groundingOf search
      let searchQueries := searchQueriesOf groundingMetadataRaw
      match textOk format.text with
      | none => Except.error (RunError.synthesisEmpty "Verity failed to structure the research data.")
      | some ft =>
        match Json.parse ft with
        | none => Except.error RunError.parseError
        | some structuredData =>
          Except.ok (withGrounding structuredData
            (groundingJson searchQueries (webSources groundingMetadataRaw)))

/-! ## Embedding of the data model (src/types.ts) -/

/-- `SourceType` union of types.ts. -/
inductive SourceType where
  | official | academic | news | blog | forum | social | unknown
deriving DecidableEq

/-- `VerificationStatus` union of types.ts. -/
inductive VerificationStatus where
  | verified | partial_ | unverified | disputed | gap
deriving DecidableEq

/-- `MatchType` union of types.ts. -/
inductive MatchType where
  | exact | semantic | partial_ | contradicts
deriving DecidableEq

/-- `Source` of types.ts. -/
structure Source where
  source_id : String
  url : String
  title : String
  author : Option String := none
  publication_date : Option String := none
  source_type : SourceType
  credibility_score : Rat
  credibility_factors : Option (List String) := none
deriving DecidableEq

/-- `ClaimSource` of types.ts. -/
structure ClaimSource where
  source_id : String
  verbatim_quote : String
  quote_context : String
  match_type : MatchType
deriving DecidableEq

/-- `Claim` of types.ts. -/
structure Claim where
  claim_id : String
  claim_text : String
  verification_status : VerificationStatus
  confidence : Rat
  sources : List ClaimSource
  verification_chain : String
deriving DecidableEq

/-- `DisputePosition` of types.ts. -/
structure DisputePosition where
  position : String
  supporting_sources : List String
deriving DecidableEq

/-- `Dispute` of types.ts. -/
structure Dispute where
  topic : String
  positions : List DisputePosition
  assessment : String
deriving DecidableEq

/-- `Summary` of types.ts. -/
structure Summary where
  executive_summary : String
  key_findings : List String
  confidence_overall : Rat
  gaps_identified : List String
deriving DecidableEq

/-- `ResearchMetadata` of types.ts. -/
structure ResearchMetadata where
  research_timestamp : String
  sources_analyzed : Nat
  claims_extracted : Nat
  verification_rate : Rat
  model_used : Option String := none
  voice_mode_active : Option Bool := none
deriving DecidableEq

/-- The `groundingMetadata` trace of types.ts. -/
structure GroundingTrace where
  searchQueries : List String
  webSources : List (String × String)
deriving DecidableEq

/-- `VerityResponse` of types.ts (the ResearchReport), with
`voice_response` kept abstract as its presence flag since no modelled
operation reads inside it. -/
structure VerityResponse where
  query : String
  summary : Summary
  claims : List Claim
  sources : List Source
  disputes : Option (List Dispute) := none
  metadata : ResearchMetadata
  voice_response_present : Bool := false
  groundingMetadata : Option GroundingTrace := none
deriving DecidableEq

/-! ## Report Merger, modelled from the spec -/

/-- Modelled from the spec: URL normalization of §4.2 (case-insensitive,
scheme-normalized comparison of source URLs); the Report Merger is not in
the source tree. -/
def normalizeUrl (u : String) : String :=
  let l := u.toLower
  if l.startsWith "https://" then l.drop 8
  else if l.startsWith "http://" then l.drop 7
  else l

/-- Modelled from the spec: the incoming-side deduplication of §4.2 —
fragment sources whose normalized URL matches an existing entry (in the
base or already kept from the fragment) are dropped. -/
def dedupIncoming (base : List Source) (incoming : List Source) : List Source :=
  incoming.foldl
    (fun kept s =>
      if (base ++ kept).any (fun t => normalizeUrl t.url = normalizeUrl s.url)
      then kept
      else kept ++ [s])
    []

/-- Modelled from the spec: the Report Merger `merge(base, fragment)` of
§4.2.  Its implementation (the live-session data-update handler consuming
the `verify_new_claim` tool result in useLive.ts) is not part of the
source tree — only its caller is — so the merge is taken from the spec's
contract: claims appended, sources appended after URL dedup, key findings
appended, counts incremented, everything else kept from the base. -/
def mergeReports (base fragment : VerityResponse) : VerityResponse :=
  let appended := dedupIncoming base.sources fragment.sources
  { base with
    claims := base.claims ++ fragment.claims
    sources := base.sources ++ appended
    summary := { base.summary with
      key_findings := base.summary.key_findings ++ fragment.summary.key_findings }
    metadata := { base.metadata with
      claims_extracted := base.metadata.claims_extracted + fragment.claims.length
      sources_analyzed := base.metadata.sources_analyzed + appended.length } }

/-! ## Embedding of useLive.disconnect (src/hooks/useLive.ts) -/

/-- The mutable state of the `useLive` hook that `disconnect` touches:
the five refs (opaque handles modelled as numbers), the set of playing
audio sources, the playback clock, the three boolean state flags and the
error message. -/
structure LiveState where
  sessionRef : Option Nat
  streamRef : Option Nat
  inputContextRef : Option Nat
  scriptProcessorRef : Option Nat
  audioContextRef : Option Nat
  sources : List Nat
  nextStartTime : Nat
  connected : Bool
  isTalking : Bool
  isProcessingTool : Bool
  error : Option String
deriving DecidableEq

/-- Shallow embedding of `disconnect` (useLive.ts lines 90–118): each ref
is closed/stopped and nulled when present; the playing sources are
stopped and cleared only inside the `if (audioContextRef.current)` block;
the three flags are set to false.  `nextStartTimeRef` and `error` are not
touched. -/
def disconnect (s : LiveState) : LiveState :=
  let s1 := if s.sessionRef.isSome then { s with sessionRef := none } else s
  let s2 := if s1.streamRef.isSome then { s1 with streamRef := none } else s1
  let s3 := if s2.inputContextRef.isSome then { s2 with inputContextRef := none } else s2
  let s4 := if s3.scriptProcessorRef.isSome then { s3 with scriptProcessorRef := none } else s3
  let s5 := if s4.audioContextRef.isSome then
              { s4 with sources := [], audioContextRef := none }
            else s4
  { s5 with connected := false, isTalking := false, isProcessingTool := false }

/-! ## Observation helpers on pipeline results -/

/-- Field access on a successful result. -/
def resultField (r : Except RunError Json) (k : String) : Option Json :=
  match r with
  | Except.ok j => j.getField k
  | Except.error _ => none

/-- A numeric field of the returned report's `metadata`, as the parsed
integer part and fractional digits. -/
def resultMetaNum (r : Except RunError Json) (k : String) : Option (Int × String) :=
  match (resultField r "metadata").bind (fun m => m.getField k) with
  | some (Json.num i f) => some (i, f)
  | _ => none

/-- A string field of the returned report's `metadata`. -/
def resultMetaStr (r : Except RunError Json) (k : String) : Option String :=
  (resultField r "metadata").bind (fun m => (m.getField k).bind Json.asString)

/-- Length of an array-valued top-level field of the returned report. -/
def resultArrLen (r : Except RunError Json) (k : String) : Option Nat :=
  ((resultField r k).bind Json.asArr).map List.length

/-- The `url` of the entry of the returned report's `sources` array whose
`source_id` is `sid`, if any. -/
def resultSourceUrl (r : Except RunError Json) (sid : String) : Option String :=
  match resultField r "sources" with
  | some (Json.arr ss) =>
    ss.findSome? (fun s =>
      if ((s.getField "source_id").bind Json.asString) == some sid
      then (s.getField "url").bind Json.asString
      else none)
  | _ => none

/-- The reconciliation property asserted of the pipeline for the C3
scenario: the result's `sources` array contains an entry with
`source_id == "s1"` and `url == "https://a.com"`. -/
def reconciledToA (r : Except RunError Json) : Bool :=
  match resultField r "sources" with
  | some (Json.arr ss) =>
    ss.any (fun s =>
      (((s.getField "source_id").bind Json.asString) == some "s1") &&
      (((s.getField "url").bind Json.asString) == some "https://a.com"))
  | _ => false

/-- Whether a run succeeded. -/
def isOk (r : Except RunError Json) : Bool :=
  match r with
  | Except.ok _ => true
  | Except.error _ => false

/-- Whether a run failed with the missing-credential error. -/
def isMissingKeyError (r : Except RunError Json) : Bool :=
  match r with
  | Except.error (RunError.configError _) => true
  | _ => false

/-! ## Concrete inputs used by counterexamples and witnesses -/

/-- A response with no text and no candidates. -/
def emptyGen : GenResponse := { text := none, candidates := [] }

/-- A search response blocked with finish reason SAFETY. -/
def safetyBlockedSearch : GenResponse :=
  { text := none,
    candidates := [{ finishReason := some "SAFETY", groundingMetadata := none }] }

/-- A successful search response carrying two grounding records
(`https://a.com` titled `A`, `https://b.com` titled `B`) and prose citing
`[1]`. -/
def abSearch : GenResponse :=
  { text := some "Finding X is supported [1]. Related figure [2].",
    candidates :=
      [{ finishReason := some "STOP",
         groundingMetadata := some
           { webSearchQueries := some ["finding x"],
             groundingChunks := some
               [{ web := some { uri := some "https://a.com", title := some "A" } },
                { web := some { uri := some "https://b.com", title := some "B" } }] } }] }

/-- Grounding chunks exercising the uri filter: a good chunk, a chunk
with no `web`, a chunk with an empty uri, and a chunk with a missing
title. -/
def mixedChunks : List GroundingChunk :=
  [{ web := some { uri := some "https://a.com", title := some "A" } },
   { web := none },
   { web := some { uri := some "", title := some "Empty" } },
   { web := some { uri := some "https://c.com", title := none } }]

/-- Grounding metadata built from `mixedChunks`. -/
def mixedGM : GroundingMetadataRaw :=
  { webSearchQueries := some ["q1", "q2"], groundingChunks := some mixedChunks }

/-- A search response carrying `mixedGM`. -/
def mixedChunkSearch : GenResponse :=
  { text := some "prose [1]",
    candidates := [{ finishReason := some "STOP", groundingMetadata := some mixedGM }] }

/-- Synthesis text for the C2 scenario: one claim and one source (with an
empty url), but metadata counts of 5 claims and 7 sources and a model
supplied timestamp. -/
def c2FormatText : String :=
  "\x7b\"query\":\"q\",\"summary\":\x7b\"executive_summary\":\"s\",\"key_findings\":[\"k\"],\"confidence_overall\":1,\"gaps_identified\":[]\x7d,\"claims\":[\x7b\"claim_id\":\"c1\",\"claim_text\":\"X\",\"verification_status\":\"verified\",\"confidence\":1,\"sources\":[\x7b\"source_id\":\"s1\",\"verbatim_quote\":\"X\",\"quote_context\":\"ctx\",\"match_type\":\"exact\"\x7d],\"verification_chain\":\"v\"\x7d],\"sources\":[\x7b\"source_id\":\"s1\",\"url\":\"\",\"title\":\"\",\"source_type\":\"news\",\"credibility_score\":1\x7d],\"metadata\":\x7b\"research_timestamp\":\"2020-01-01T00:00:00Z\",\"sources_analyzed\":7,\"claims_extracted\":5,\"verification_rate\":0\x7d\x7d"

/-- The C2 synthesis response. -/
def c2Format : GenResponse := { text := some c2FormatText, candidates := [] }

/-- The C2 run: credential present, both collaborator calls return text,
the synthesis text parses as JSON. -/
def c2Run : Except RunError Json := runResearch "key" "q" "standard" false abSearch c2Format

/-- Synthesis text for the C3 scenario: the synthesized source `s1` has
empty url and title. -/
def c3FormatText : String :=
  "\x7b\"claims\":[],\"sources\":[\x7b\"source_id\":\"s1\",\"url\":\"\",\"title\":\"\",\"source_type\":\"unknown\",\"credibility_score\":0\x7d]\x7d"

/-- The C3 synthesis response. -/
def c3Format : GenResponse := { text := some c3FormatText, candidates := [] }

/-- The C3 run. -/
def c3Run : Except RunError Json := runResearch "key" "q" "standard" false abSearch c3Format

/-- A valid JSON document. -/
def c5InnerText : String := "\x7b\"query\": \"q\"\x7d"

/-- The same document wrapped in a fenced code block labeled json. -/
def c5FencedText : String := "```json\n\x7b\"query\": \"q\"\x7d\n```"

/-- The C5 synthesis response: fenced JSON. -/
def c5Format : GenResponse := { text := some c5FencedText, candidates := [] }

/-- A minimal synthesis response whose text parses as JSON. -/
def smallFormat : GenResponse := { text := some "\x7b\"claims\": []\x7d", candidates := [] }

/-- The report returned by a run, or `Json.null` if the run failed. -/
def reportOf (r : Except RunError Json) : Json :=
  match r with
  | Except.ok j => j
  | Except.error _ => Json.null

/-- The successful mixed-chunk run's report. -/
def c8ResultJson : Json :=
  reportOf (runResearch "key" "q" "quick" false mixedChunkSearch smallFormat)

/-- The successful minimal run's report over `abSearch`. -/
def c9ResultJson : Json :=
  reportOf (runResearch "key" "q" "quick" false abSearch smallFormat)

/-- The C3 run's report. -/
def c3ResultJson : Json := reportOf c3Run

/-- The parsed field list of `c3FormatText`. -/
def c3ParsedFields : List (String × Json) :=
  [("claims", Json.arr []),
   ("sources", Json.arr
     [Json.obj
       [("source_id", Json.str "s1"), ("url", Json.str ""), ("title", Json.str ""),
        ("source_type", Json.str "unknown"), ("credibility_score", Json.num 0 "")]])]

/-! ## Concrete reports for the Report Merger -/

/-- A source entry. -/
def srcA : Source :=
  { source_id := "s1", url := "https://a.com", title := "A",
    source_type := SourceType.news, credibility_score := 1 }

/-- A source entry with a distinct URL. -/
def srcB : Source :=
  { source_id := "s2", url := "https://b.com", title := "B",
    source_type := SourceType.academic, credibility_score := 1 }

/-- A claim entry. -/
def claimA : Claim :=
  { claim_id := "c1", claim_text := "X holds.",
    verification_status := VerificationStatus.verified, confidence := 1,
    sources := [{ source_id := "s1", verbatim_quote := "X", quote_context := "ctx",
                  match_type := MatchType.exact }],
    verification_chain := "chain" }

/-- A second claim entry. -/
def claimB : Claim :=
  { claim_id := "c2", claim_text := "Y holds.",
    verification_status := VerificationStatus.partial_, confidence := 1,
    sources := [{ source_id := "s2", verbatim_quote := "Y", quote_context := "ctx",
                  match_type := MatchType.semantic }],
    verification_chain := "chain" }

/-- A base report satisfying the count invariants. -/
def baseReport : VerityResponse :=
  { query := "q",
    summary := { executive_summary := "sum", key_findings := ["f1"],
                 confidence_overall := 1, gaps_identified := [] },
    claims := [claimA], sources := [srcA],
    metadata := { research_timestamp := "2024-01-01T00:00:00Z",
                  sources_analyzed := 1, claims_extracted := 1,
                  verification_rate := 1 } }

/-- A fragment report carrying one new claim and one new source. -/
def fragReport : VerityResponse :=
  { query := "q",
    summary := { executive_summary := "frag", key_findings := ["f2"],
                 confidence_overall := 1, gaps_identified := [] },
    claims := [claimB], sources := [srcB],
    metadata := { research_timestamp := "2024-01-02T00:00:00Z",
                  sources_analyzed := 1, claims_extracted := 1,
                  verification_rate := 1 } }

/-! ## Concrete live-session states -/

/-- A live-session state in which playing sources exist but the output
audio-context ref has already been nulled. -/
def orphanState : LiveState :=
  { sessionRef := none, streamRef := none, inputContextRef := none,
    scriptProcessorRef := none, audioContextRef := none,
    sources := [0], nextStartTime := 0,
    connected := false, isTalking := true, isProcessingTool := false,
    error := none }

/-- A fully connected live-session state. -/
def liveSample : LiveState :=
  { sessionRef := some 1, streamRef := some 2, inputContextRef := some 3,
    scriptProcessorRef := some 4, audioContextRef := some 5,
    sources := [7, 8], nextStartTime := 3,
    connected := true, isTalking := true, isProcessingTool := true,
    error := none }

/-! ## Shared lemmas -/

/-- Last-wins lookup over a one-element extension. -/
theorem lookupLast_append_single (fs : List (String × Json)) (a : String) (v : Json)
    (k : String) :
    lookupLast (fs ++ [(a, v)]) k = if a = k then some v else lookupLast fs k := by
  simp [lookupLast, List.foldl_append]

/-- The returned report's `groundingMetadata` field is the attached trace. -/
theorem getField_withGrounding_self (sd G : Json) :
    (withGrounding sd G).getField "groundingMetadata" = some G := by
  simp [withGrounding, Json.getField, lookupLast_append_single]

/-- Every other field of the returned report is read off the parsed
synthesis object. -/
theorem getField_withGrounding_ne (fs : List (String × Json)) (G : Json) (k : String)
    (h : ¬ k = "groundingMetadata") :
    (withGrounding (Json.obj fs) G).getField k = lookupLast fs k := by
  have h' : ¬ ("groundingMetadata" = k) := fun hh => h hh.symm
  simp [withGrounding, Json.getField, spreadFields, lookupLast_append_single, h']

/-- Inversion of a successful run: the credential was present, both
stages produced text, the synthesis text parsed, and the result is that
parse with the grounding trace attached. -/
theorem runResearch_ok_elim {apiKey query depth : String} {v : Bool}
    {search format : GenResponse} {r : Json}
    (h : runResearch apiKey query depth v search format = Except.ok r) :
    ∃ ft sd, textOk format.text = some ft ∧ Json.parse ft = some sd ∧
      r = withGrounding sd (groundingJson (searchQueriesOf (groundingOf search))
            (webSources (groundingOf search))) := by
  by_cases hk : apiKey = ""
  · simp [runResearch, hk] at h
  · cases hs : textOk search.text with
    | none => simp [runResearch, hk, hs] at h
    | some rt =>
      cases hf : textOk format.text with
      | none => simp [runResearch, hk, hs, hf] at h
      | some ft =>
        cases hp : Json.parse ft with
        | none => simp [runResearch, hk, hs, hf, hp] at h
        | some sd =>
          refine ⟨ft, sd, rfl, hp, ?_⟩
          simp [runResearch, hk, hs, hf, hp] at h
          exact h.symm

/-- Filtering the reduced pairs by non-empty uri is filtering the chunks
by non-empty uri and then reducing. -/
theorem chunkPairs_filter (chunks : List GroundingChunk) :
    (chunks.map chunkPair).filter (fun s => ¬ s.1 = "") =
      (chunks.filter (fun c => ¬ chunkUri c = "")).map chunkPair := by
  induction chunks with
  | nil => rfl
  | cons c cs ih =>
    by_cases h : chunkUri c = "" <;>
      simp only [List.map_cons, List.filter_cons, chunkPair, h, decide_not,
        decide_True, decide_False, Bool.not_false, Bool.not_true, if_true, if_false,
        ite_true, ite_false] <;>
      simp_all [decide_not]

/-- Unfolding of `webSources` on present grounding metadata. -/
theorem webSources_some (gm : GroundingMetadataRaw) (chunks : List GroundingChunk)
    (hc : gm.groundingChunks = some chunks) :
    webSources (some gm) = (chunks.map chunkPair).filter (fun s => ¬ s.1 = "") := by
  unfold webSources
  rw [Option.some_bind, hc]

/-- Closed form of `disconnect`: every ref is nulled, the flags are
false, and the playing sources survive exactly when the audio-context
ref was already null. -/
theorem disconnect_closed_form (s : LiveState) :
    disconnect s =
      { s with sessionRef := none, streamRef := none, inputContextRef := none,
               scriptProcessorRef := none, audioContextRef := none,
               sources := if s.audioContextRef.isSome then [] else s.sources,
               connected := false, isTalking := false, isProcessingTool := false } := by
  rcases s with ⟨ses, st, ic, sp, ac, src, nst, c, t, p, e⟩
  cases ses <;> cases st <;> cases ic <;> cases sp <;> cases ac <;> rfl

/-! ## Claim theorems -/

/-- C7: if the API credential is empty, `runResearch` fails immediately
with the missing-credential error, independently of both collaborator
responses (so no request is attempted); and the missing-credential error
is raised if and only if the credential is empty. -/
theorem c7_missing_credential (apiKey query depth : String) (v : Bool)
    (search format : GenResponse) :
    (isMissingKeyError (runResearch apiKey query depth v search format) = true ↔
      apiKey = "") ∧
    (apiKey = "" → runResearch apiKey query depth v search format =
      Except.error (RunError.configError
        "API Key is missing. Please set the API_KEY environment variable.")) := by
  constructor
  · constructor
    · intro h
      by_contra hk
      cases hs : textOk search.text with
      | none => simp [runResearch, hk, hs, isMissingKeyError] at h
      | some rt =>
        cases hf : textOk format.text with
        | none => simp [runResearch, hk, hs, hf, isMissingKeyError] at h
        | some ft =>
          cases hp : Json.parse ft with
          | none => simp [runResearch, hk, hs, hf, hp, isMissingKeyError] at h
          | some sd => simp [runResearch, hk, hs, hf, hp, isMissingKeyError] at h
    · intro hk
      simp [runResearch, hk, isMissingKeyError]
  · intro hk
    simp [runResearch, hk]

/-- C7 witness: with the empty credential the run fails with the
missing-credential error; with a non-empty credential that error does
not occur. -/
theorem c7_witness :
    runResearch "" "q" "quick" false abSearch smallFormat =
      Except.error (RunError.configError
        "API Key is missing. Please set the API_KEY environment variable.") ∧
    isMissingKeyError (runResearch "key" "q" "quick" false abSearch smallFormat) = false := by
  constructor
  · exact (c7_missing_credential "" "q" "quick" false abSearch smallFormat).2 rfl
  · have h := (c7_missing_credential "key" "q" "quick" false abSearch smallFormat).1
    cases hb : isMissingKeyError (runResearch "key" "q" "quick" false abSearch smallFormat) with
    | false => rfl
    | true => exact absurd (h.mp hb) (by decide)

/-- C6: when the search stage returns no usable text, `runResearch`
fails with the no-content error whose message is selected by the finish
reason, the failure is independent of the synthesis response (terminal,
the second call's outcome is never consulted), and the SAFETY,
RECITATION and generic messages are pairwise distinct. -/
theorem c6_search_no_text (apiKey query depth : String) (v : Bool) (search : GenResponse)
    (hk : ¬ apiKey = "") (hs : textOk search.text = none) :
    (∀ format, runResearch apiKey query depth v search format =
        Except.error (RunError.noContent (noContentMessage (finishReasonOf search)))) ∧
    noContentMessage (some "SAFETY") =
      "The research was blocked due to safety content filters. (Step 1 No Text)" ∧
    noContentMessage (some "RECITATION") =
      "The research was blocked due to recitation of copyrighted content. (Step 1 No Text)" ∧
    (∀ fr, ¬ fr = some "SAFETY" → ¬ fr = some "RECITATION" →
        noContentMessage fr =
          "Verity could not find information on this topic. (Step 1 No Text)") ∧
    noContentMessage (some "SAFETY") ≠ noContentMessage (some "RECITATION") ∧
    noContentMessage (some "SAFETY") ≠ noContentMessage none ∧
    noContentMessage (some "RECITATION") ≠ noContentMessage none := by
  refine ⟨?_, rfl, rfl, ?_, by decide, by decide, by decide⟩
  · intro format
    simp [runResearch, hk, hs]
  · intro fr h1 h2
    simp [noContentMessage, h1, h2]

/-- C6 witness: a SAFETY-blocked empty search response yields the
safety message, for a synthesis response that was never consulted. -/
theorem c6_witness :
    runResearch "key" "q" "quick" false safetyBlockedSearch emptyGen =
      Except.error (RunError.noContent
        "The research was blocked due to safety content filters. (Step 1 No Text)") :=
  (c6_search_no_text "key" "q" "quick" false safetyBlockedSearch (by decide) rfl).1 emptyGen

/-- C4 (amended): the Depth Policy maps quick, standard and deep to the
three fixed instructions, every other depth value yields the empty
instruction, and the pipeline's outcome is independent of the depth
value — an unknown depth does not fail fast. -/
theorem c4_depth_policy :
    depthInstruction "quick" =
      "Find the top 3 most relevant sources. Be concise but factual." ∧
    depthInstruction "standard" =
      "Analyze 5-7 distinct high-quality sources. Provide a balanced view." ∧
    depthInstruction "deep" =
      "Conduct an exhaustive search (10+ sources). Cross-reference extensively and look for edge cases." ∧
    (∀ d, ¬ d = "quick" → ¬ d = "standard" → ¬ d = "deep" → depthInstruction d = "") ∧
    (∀ apiKey query d1 d2 v search format,
      runResearch apiKey query d1 v search format =
        runResearch apiKey query d2 v search format) := by
  refine ⟨rfl, rfl, rfl, ?_, ?_⟩
  · intro d h1 h2 h3
    simp [depthInstruction, h1, h2, h3]
  · intro apiKey query d1 d2 v search format
    rfl

/-- C4 witness: an unknown depth value yields the empty instruction. -/
theorem c4_witness : depthInstruction "turbo" = "" :=
  c4_depth_policy.2.2.2.1 "turbo" (by decide) (by decide) (by decide)

/-- C4 counterexample: with the unknown depth value "instant" the
instruction is left empty, the search prompt is nevertheless built with
that empty instruction, and the run proceeds to success — no fail-fast
error is raised. -/
theorem c4_counterexample :
    depthInstruction "instant" = "" ∧
    researchPrompt "q" "instant" = "\n    RESEARCH QUERY: \"q\"\n    INSTRUCTION: \n  " ∧
    isOk (runResearch "key" "q" "instant" false abSearch smallFormat) = true :=
  ⟨rfl, rfl, rfl⟩

/-- C8: in the grounding trace attached to every successful run,
`webSources` is exactly the chunks whose `web.uri` is non-empty, in
their original order, each reduced to its `{uri, title}` pair. -/
theorem c8_webSources (apiKey query depth : String) (v : Bool) (search format : GenResponse)
    (r : Json) (gm : GroundingMetadataRaw) (chunks : List GroundingChunk)
    (hok : runResearch apiKey query depth v search format = Except.ok r)
    (hg : groundingOf search = some gm)
    (hc : gm.groundingChunks = some chunks) :
    (r.getField "groundingMetadata").bind (fun g => g.getField "webSources") =
      some (Json.arr (((chunks.filter (fun c => ¬ chunkUri c = "")).map chunkPair).map
        webSourceJson)) := by
  obtain ⟨ft, sd, hf, hp, rfl⟩ := runResearch_ok_elim hok
  rw [getField_withGrounding_self, hg, webSources_some gm chunks hc, chunkPairs_filter]
  rfl

/-- C8 witness: over the mixed chunk list the trace keeps the two
chunks with non-empty uris, in order, with the missing title replaced. -/
theorem c8_witness :
    (c8ResultJson.getField "groundingMetadata").bind (fun g => g.getField "webSources") =
      some (Json.arr (((mixedChunks.filter (fun c => ¬ chunkUri c = "")).map chunkPair).map
        webSourceJson)) :=
  c8_webSources "key" "q" "quick" false mixedChunkSearch smallFormat c8ResultJson
    mixedGM mixedChunks rfl rfl rfl

/-- C9: on every successful run the returned report is the parsed
synthesis document with only `groundingMetadata` added or replaced —
every other top-level field (query, summary, claims, sources, disputes,
metadata, voice_response) is read back exactly as the synthesis model
emitted it, with no validation, back-fill, deduplication or count
recomputation, whatever the grounding records were. -/
theorem c9_frame_effect (apiKey query depth : String) (v : Bool) (search format : GenResponse)
    (r : Json) (ft : String) (fs : List (String × Json))
    (hok : runResearch apiKey query depth v search format = Except.ok r)
    (hf : textOk format.text = some ft)
    (hp : Json.parse ft = some (Json.obj fs)) :
    (∀ k, ¬ k = "groundingMetadata" → r.getField k = (Json.obj fs).getField k) ∧
    r.getField "groundingMetadata" =
      some (groundingJson (searchQueriesOf (groundingOf search))
        (webSources (groundingOf search))) := by
  obtain ⟨ft', sd, hf', hp', rfl⟩ := runResearch_ok_elim hok
  rw [hf] at hf'
  injection hf' with hft
  subst hft
  rw [hp] at hp'
  injection hp' with hsd
  subst hsd
  exact ⟨fun k hk => getField_withGrounding_ne fs _ k hk, getField_withGrounding_self _ _⟩

set_option maxRecDepth 100000 in
/-- C9 witness: the minimal synthesis document comes back with its
`claims` field untouched and the computed trace attached. -/
theorem c9_witness :
    c9ResultJson.getField "claims" = some (Json.arr []) ∧
    c9ResultJson.getField "groundingMetadata" =
      some (groundingJson ["finding x"] [("https://a.com", "A"), ("https://b.com", "B")]) := by
  have h := c9_frame_effect "key" "q" "quick" false abSearch smallFormat c9ResultJson
    "\x7b\"claims\": []\x7d" [("claims", Json.arr [])] rfl rfl rfl
  exact ⟨h.1 "claims" (by decide), h.2⟩

/-- C2 (amended): on every successful run the SYNTHESIZING to DONE step
parses the synthesis text as JSON, attaches the grounding trace, and
returns the result; the metadata (timestamp and counts) and the source
list are whatever the synthesis model emitted, unchanged. -/
theorem c2_done_step (apiKey query depth : String) (v : Bool) (search format : GenResponse)
    (rt ft : String) (sd : Json)
    (hk : ¬ apiKey = "") (hs : textOk search.text = some rt)
    (hf : textOk format.text = some ft) (hp : Json.parse ft = some sd) :
    runResearch apiKey query depth v search format =
      Except.ok (withGrounding sd
        (groundingJson (searchQueriesOf (groundingOf search))
          (webSources (groundingOf search)))) := by
  simp [runResearch, hk, hs, hf, hp]

/-- C2 witness: a concrete successful run returns the parsed document
with the trace attached. -/
theorem c2_witness :
    runResearch "key" "q" "quick" false abSearch smallFormat =
      Except.ok (withGrounding (Json.obj [("claims", Json.arr [])])
        (groundingJson (searchQueriesOf (groundingOf abSearch))
          (webSources (groundingOf abSearch)))) :=
  c2_done_step "key" "q" "quick" false abSearch smallFormat
    "Finding X is supported [1]. Related figure [2]." "\x7b\"claims\": []\x7d"
    (Json.obj [("claims", Json.arr [])]) (by decide) rfl rfl rfl

set_option maxRecDepth 400000 in
/-- C2 counterexample: a successful run in which the synthesis model
emitted one claim and one source but metadata counts of 5 and 7 and its
own timestamp; the returned report keeps the mismatched counts, the
model's timestamp and the empty source url — the DONE step computes no
counts, no timestamp and performs no reconciliation. -/
theorem c2_counterexample :
    resultMetaNum c2Run "claims_extracted" = some (5, "") ∧
    resultArrLen c2Run "claims" = some 1 ∧
    resultMetaNum c2Run "sources_analyzed" = some (7, "") ∧
    resultArrLen c2Run "sources" = some 1 ∧
    resultMetaStr c2Run "research_timestamp" = some "2020-01-01T00:00:00Z" ∧
    resultSourceUrl c2Run "s1" = some "" ∧
    ¬ (5 : Int) = 1 ∧ ¬ (7 : Int) = 1 :=
  ⟨rfl, rfl, rfl, rfl, rfl, rfl, by decide, by decide⟩

/-- C3 (amended): the `sources` list produced by the pipeline is exactly
the synthesis model's emitted `sources` array; back-filling url and
title from the grounding records is requested of the model in the
prompt, not performed by the pipeline, so an entry the model leaves with
an empty url stays empty. -/
theorem c3_sources_passthrough (apiKey query depth : String) (v : Bool)
    (search format : GenResponse) (r : Json) (ft : String) (fs : List (String × Json))
    (hok : runResearch apiKey query depth v search format = Except.ok r)
    (hf : textOk format.text = some ft)
    (hp : Json.parse ft = some (Json.obj fs)) :
    r.getField "sources" = lookupLast fs "sources" := by
  obtain ⟨ft', sd, hf', hp', rfl⟩ := runResearch_ok_elim hok
  rw [hf] at hf'
  injection hf' with hft
  subst hft
  rw [hp] at hp'
  injection hp' with hsd
  subst hsd
  exact getField_withGrounding_ne fs _ "sources" (by decide)

set_option maxRecDepth 200000 in
/-- C3 witness: the C3 run's `sources` field is the parsed array,
verbatim. -/
theorem c3_witness :
    c3ResultJson.getField "sources" = lookupLast c3ParsedFields "sources" :=
  c3_sources_passthrough "key" "q" "standard" false abSearch c3Format c3ResultJson
    c3FormatText c3ParsedFields rfl rfl rfl

set_option maxRecDepth 200000 in
/-- C3 counterexample: with grounding records for `https://a.com` and
`https://b.com`, prose citing [1], and a synthesized source s1 with
empty url, the pipeline's reconciled entry for s1 still has url `""`,
not `"https://a.com"`. -/
theorem c3_counterexample :
    reconciledToA c3Run = false ∧
    resultSourceUrl c3Run "s1" = some "" ∧
    ¬ ("" : String) = "https://a.com" :=
  ⟨rfl, rfl, by decide⟩

/-- C5 (amended): the consumer parses the raw synthesis text directly,
without stripping code fencing; whenever that parse fails — in
particular on a fenced document — the run fails with a parse error
instead of yielding the wrapped document. -/
theorem c5_no_strip (apiKey query depth : String) (v : Bool) (search format : GenResponse)
    (rt ft : String)
    (hk : ¬ apiKey = "") (hs : textOk search.text = some rt)
    (hf : textOk format.text = some ft) (hp : Json.parse ft = none) :
    runResearch apiKey query depth v search format = Except.error RunError.parseError := by
  simp [runResearch, hk, hs, hf, hp]

/-- C5 witness: the fenced response makes the run fail with a parse
error. -/
theorem c5_witness :
    runResearch "key" "q" "standard" false abSearch c5Format =
      Except.error RunError.parseError :=
  c5_no_strip "key" "q" "standard" false abSearch c5Format
    "Finding X is supported [1]. Related figure [2]." c5FencedText
    (by decide) rfl rfl rfl

/-- C5 counterexample: the document is valid JSON, its fenced wrapping
is not parseable, and the run on the fenced response fails instead of
yielding the wrapped document — no fencing is stripped. -/
theorem c5_counterexample :
    Json.parse c5InnerText = some (Json.obj [("query", Json.str "q")]) ∧
    Json.parse c5FencedText = none ∧
    runResearch "key" "q" "quick" false abSearch c5Format =
      Except.error RunError.parseError :=
  ⟨rfl, rfl, rfl⟩

/-- C1: for every merge of a base report satisfying the count
invariants with a fragment, the merged report satisfies
`metadata.claims_extracted = claims.length` and
`metadata.sources_analyzed = sources.length` exactly. -/
theorem c1_merge_counts (base fragment : VerityResponse)
    (h1 : base.metadata.claims_extracted = base.claims.length)
    (h2 : base.metadata.sources_analyzed = base.sources.length) :
    (mergeReports base fragment).metadata.claims_extracted =
      (mergeReports base fragment).claims.length ∧
    (mergeReports base fragment).metadata.sources_analyzed =
      (mergeReports base fragment).sources.length := by
  constructor <;> simp [mergeReports, h1, h2]

/-- C1 witness: merging the concrete fragment into the concrete base
preserves both count invariants. -/
theorem c1_witness :
    (mergeReports baseReport fragReport).metadata.claims_extracted =
      (mergeReports baseReport fragReport).claims.length ∧
    (mergeReports baseReport fragReport).metadata.sources_analyzed =
      (mergeReports baseReport fragReport).sources.length :=
  c1_merge_counts baseReport fragReport rfl rfl

/-- C10 (amended): `disconnect` nulls the session, microphone-stream,
script-processor and both audio-context refs, sets connected, isTalking
and isProcessingTool to false, empties the playing-source set whenever
the output audio-context ref was non-null (or the set was already
empty), and is idempotent — a second call from the post-disconnect state
changes nothing and raises no error. -/
theorem c10_disconnect (s : LiveState) :
    (disconnect s).sessionRef = none ∧
    (disconnect s).streamRef = none ∧
    (disconnect s).inputContextRef = none ∧
    (disconnect s).scriptProcessorRef = none ∧
    (disconnect s).audioContextRef = none ∧
    (disconnect s).connected = false ∧
    (disconnect s).isTalking = false ∧
    (disconnect s).isProcessingTool = false ∧
    (s.audioContextRef.isSome = true ∨ s.sources = [] → (disconnect s).sources = []) ∧
    disconnect (disconnect s) = disconnect s := by
  refine ⟨?_, ?_, ?_, ?_, ?_, ?_, ?_, ?_, ?_, ?_⟩
  · simp [disconnect_closed_form]
  · simp [disconnect_closed_form]
  · simp [disconnect_closed_form]
  · simp [disconnect_closed_form]
  · simp [disconnect_closed_form]
  · simp [disconnect_closed_form]
  · simp [disconnect_closed_form]
  · simp [disconnect_closed_form]
  · intro h
    rcases h with h | h <;> simp [disconnect_closed_form, h]
  · simp [disconnect_closed_form]

/-- C10 witness: from a fully connected state one `disconnect` call
clears everything, and a second call is a no-op. -/
theorem c10_witness :
    (disconnect liveSample).sources = [] ∧
    disconnect (disconnect liveSample) = disconnect liveSample := by
  obtain ⟨-, -, -, -, -, -, -, -, h9, h10⟩ := c10_disconnect liveSample
  exact ⟨h9 (Or.inl rfl), h10⟩

/-- C10 counterexample: from a state whose audio-context ref is already
null but whose playing-source set is non-empty, `disconnect` leaves the
source set non-empty — the cleanup of the source set is guarded by the
audio-context ref. -/
theorem c10_counterexample :
    (disconnect orphanState).sources = [0] ∧ ¬ ([0] : List Nat) = ([] : List Nat) :=
  ⟨rfl, by decide⟩

end Verity
